import Mathlib

/-!
Shallow embedding of `we1s_chomp/wordpress.py` (scraping tools for the
Wordpress API) and verification of the specification's claims about it.

The module has three functions:
* `get_url`    — pure query-URL construction (source lines 112-130);
* `get_responses` — paginated harvester (source lines 24-109);
* `is_api_available` — API availability probe (source lines 133-180).

Modelling conventions:
* JSON values are the inductive `JVal`; `json.loads` is abstracted as a
  caller-supplied total function `decode : String → Option JVal`
  (`none` models a `json.JSONDecodeError`), since JSON parsing is an
  external collaborator of the repository.
* The network fetcher (`requests`/Selenium, `we1s_chomp.browser.get`) is
  abstracted as `collector : String → String` returning the raw body.
* `dateparser.parse` is abstracted as `dateparse : String → Option String`
  (date-or-null, never raises on text input).
* Python exceptions are the inductive `PyExc`; fallible operations return
  `Except PyExc _`.  Python-level divergence is modelled with a fuel
  parameter: `PyRun.hung` means the fuel ran out, and a function that
  yields `.hung` for every fuel diverges.
* Python `str` is Lean `String`; Python `int` is Lean `Int`;
  `Set[str]` is a duplicate-free `List` used as a set.
-/

/-- JSON values (the result of `json.loads`).  Objects are association
lists; they stand for Python dicts, so keys are assumed unique. -/
inductive JVal where
  | null : JVal
  | bool : Bool → JVal
  | num : Int → JVal
  | str : String → JVal
  | arr : List JVal → JVal
  | obj : List (String × JVal) → JVal

/-- The Python exception classes that the embedded code can raise. -/
inductive PyExc where
  | typeError
  | keyError
  | attributeError
  | stopIteration
  | jsonDecodeError
deriving DecidableEq, Repr

/-- Python `s.strip()`: remove leading and trailing whitespace. -/
def pyStrip (s : String) : String :=
  String.mk (((s.toList.dropWhile Char.isWhitespace).reverse.dropWhile Char.isWhitespace).reverse)

/-- Python `s.rstrip(c)` for a one-character set: remove every trailing
occurrence of `c`. -/
def pyRstrip (s : String) (c : Char) : String :=
  String.mk ((s.toList.reverse.dropWhile (fun x => x == c)).reverse)

/-- Python `sep.join(xs)`. -/
def pyJoin (sep : String) : List String → String
  | [] => ""
  | [x] => x
  | x :: y :: xs => x ++ sep ++ pyJoin sep (y :: xs)

/-- Python substring test `needle in hay` for strings. -/
def strContains (hay needle : String) : Bool :=
  hay.toList.tails.any (fun t => needle.toList.isPrefixOf t)

/-- Python subscript `v[k]` with a string key.  Only dicts succeed;
lists and strings need integer indices (`TypeError`); other values are
not subscriptable (`TypeError`); a missing dict key is a `KeyError`. -/
def JVal.getItem (v : JVal) (k : String) : Except PyExc JVal :=
  match v with
  | .obj kvs =>
    match kvs.lookup k with
    | some x => .ok x
    | none => .error .keyError
  | _ => .error .typeError

/-- Whether a list of JSON values has an element equal (in Python's
sense, comparing against a `str`) to the string `s`. -/
def listHasStr (xs : List JVal) (s : String) : Bool :=
  xs.any (fun x => match x with | JVal.str t => t == s | _ => false)

/-- Python membership `s in v` for a string `s`: in a list it compares
elements for equality, in a dict it tests keys, in a string it is a
substring test; other values are not iterable (`TypeError`). -/
def JVal.hasMember (v : JVal) (s : String) : Except PyExc Bool :=
  match v with
  | .arr xs => .ok (listHasStr xs s)
  | .obj kvs => .ok (kvs.any (fun kv => kv.1 == s))
  | .str t => .ok (strContains t s)
  | _ => .error .typeError

/-- Python iteration over `v`: lists yield elements, strings yield
one-character strings, dicts yield their keys; other values raise
`TypeError`. -/
def JVal.pyIter (v : JVal) : Except PyExc (List JVal) :=
  match v with
  | .arr xs => .ok xs
  | .str t => .ok (t.toList.map (fun c => JVal.str (String.mk [c])))
  | .obj kvs => .ok (kvs.map (fun kv => JVal.str kv.1))
  | _ => .error .typeError

/-- Python `"k" in v.keys()`: only dicts have `.keys()`; every other
value raises `AttributeError`. -/
def JVal.keysContains (v : JVal) (s : String) : Except PyExc Bool :=
  match v with
  | .obj kvs => .ok (kvs.any (fun kv => kv.1 == s))
  | _ => .error .attributeError

/-- Python `next(xs, default)` where `xs` is a *list* (here: a list
comprehension, as at source line 67).  CPython's `next` requires an
iterator; a list is not one, so this raises
`TypeError: list object is not an iterator` regardless of the default. -/
def pyNextList (_xs : List String) (_default : Option String) : Except PyExc (Option String) :=
  .error .typeError

/-- Equality of hashable JSON values (`None`, `bool`, `int`, `str`),
used by `pySetAdd`.  (Python's cross-type numeric equality such as
`True == 1` is not modelled; no claim depends on it.) -/
def JVal.scalarEq (a b : JVal) : Bool :=
  match a, b with
  | .null, .null => true
  | .bool x, .bool y => x == y
  | .num x, .num y => x == y
  | .str x, .str y => x == y
  | _, _ => false

/-- Python `set.add`: lists and dicts are unhashable (`TypeError`);
otherwise insert the value if no equal element is present.  The set is
modelled as a duplicate-free list in insertion order. -/
def pySetAdd (s : List JVal) (v : JVal) : Except PyExc (List JVal) :=
  match v with
  | .arr _ => .error .typeError
  | .obj _ => .error .typeError
  | _ => .ok (if s.any (fun x => JVal.scalarEq v x) then s else s ++ [v])

/-! ## Module constants (source lines 14-21) -/

def API_SUFFIX : String := "wp-json/wp/v2"

def ARTICLES_PER_RESPONSE_PAGE : Nat := 10

def ENDPOINTS : List String := ["pages", "posts"]

/-! ## `get_url` (source lines 112-130) -/

/-- Embedding of `get_url(base_url, term, page, endpoint)`:
`base_url.strip().rstrip("/").rstrip("?") + f"/{API_SUFFIX}/{endpoint}?"
 + "&".join([f"search={term}", "sentence=1", f"page={page}"])`.
The `print(url)` diagnostic has no functional effect and is omitted. -/
def get_url (base_url term : String) (page : Int) (endpoint : String) : String :=
  pyRstrip (pyRstrip (pyStrip base_url) '/') '?'
    ++ "/" ++ API_SUFFIX ++ "/" ++ endpoint ++ "?"
    ++ pyJoin "&" ["search=" ++ term, "sentence=1", "page=" ++ toString page]

/-! ## `get_responses` (source lines 24-109) -/

/-- One collected response record (source lines 91-98). -/
structure HarvestRecord where
  pub_date : Option String
  content_unscrubbed : JVal
  title : JVal
  url : JVal

/-- The mutable state of a `get_responses` run: the accumulated
`results` list, the caller's `url_stops` set, the `skipped` counter, and
(for observability) the list of URLs passed to the collector so far. -/
structure HState where
  results : List HarvestRecord
  url_stops : List JVal
  skipped : Nat
  fetched : List String

/-- Outcome of running a fragment of Python code: it returned normally
with value `σ`, an exception escaped (with the harvest state at the
raise point), or the fuel ran out (`hung` for every fuel models
divergence). -/
inductive PyRun (σ : Type) where
  | done : σ → PyRun σ
  | raised : PyExc → HState → PyRun σ
  | hung : PyRun σ

/-- Call `dateparser.parse(v)`: the collaborator accepts text and returns a
date or `None`; a non-string argument raises `TypeError`. -/
def pyDateparse (dateparse : String → Option String) (v : JVal) : Except PyExc (Option String) :=
  match v with
  | .str s => .ok (dateparse s)
  | _ => .error .typeError

/-- The condition of the pre-skip loop (source lines 65-68):
`url in url_stop_words or
 next([s for s in url_stop_words if s in url], None) is not None`.
The first disjunct short-circuits; evaluating the second applies `next`
to a list and raises `TypeError`. -/
def preSkipCond (url_stop_words : List String) (url : String) : Except PyExc Bool :=
  if url ∈ url_stop_words then .ok true
  else
    match pyNextList (url_stop_words.filter (fun s => strContains url s)) none with
    | .error e => .error e
    | .ok r => .ok r.isSome

/-- The pre-skip loop (source lines 63-71).  Each iteration advances the
page counter and the skip count and calls `get_url`, but the result of
that call is discarded: line 71 does not assign it to `url`, so the
tested URL never changes. -/
def preSkip (url_stop_words : List String) (base_url term endpoint : String) :
    Nat → Int → String → HState → PyRun (Int × String × HState)
  | fuel, page, url, st =>
    match preSkipCond url_stop_words url with
    | .error e => .raised e st
    | .ok false => .done (page, url, st)
    | .ok true =>
      match fuel with
      | 0 => .hung
      | fuel' + 1 =>
        let _ := get_url base_url term (page + 1) endpoint
        preSkip url_stop_words base_url term endpoint fuel' (page + 1) url
          ⟨st.results, st.url_stops, st.skipped + ARTICLES_PER_RESPONSE_PAGE, st.fetched⟩

/-- The body of `for result in res` for one item (source lines 91-99):
build the record dict, append it, and add `result["link"]` to
`url_stops`. -/
def processOne (dateparse : String → Option String) (result : JVal) :
    Except PyExc (HarvestRecord × JVal) :=
  match result.getItem "date" with
  | .error e => .error e
  | .ok d =>
    match pyDateparse dateparse d with
    | .error e => .error e
    | .ok pub =>
      match result.getItem "content" with
      | .error e => .error e
      | .ok content =>
        match content.getItem "rendered" with
        | .error e => .error e
        | .ok contentRendered =>
          match result.getItem "title" with
          | .error e => .error e
          | .ok title =>
            match title.getItem "rendered" with
            | .error e => .error e
            | .ok titleRendered =>
              match result.getItem "link" with
              | .error e => .error e
              | .ok link => .ok (⟨pub, contentRendered, titleRendered, link⟩, link)

/-- The `for result in res` loop (source lines 90-99), threading the
results list and the `url_stops` set; on an exception the partial
updates made so far remain visible. -/
def processPage (dateparse : String → Option String) :
    List JVal → List HarvestRecord → List JVal →
    Option PyExc × List HarvestRecord × List JVal
  | [], results, stops => (none, results, stops)
  | r :: rs, results, stops =>
    match processOne dateparse r with
    | .error e => (some e, results, stops)
    | .ok (record, link) =>
      match pySetAdd stops link with
      | .error e => (some e, results ++ [record], stops)
      | .ok stops' => processPage dateparse rs (results ++ [record]) stops'

/-- The fetch loop (source lines 73-103): while the page limit allows,
fetch the current URL, decode it, stop on a decode failure or on a value
that is not a non-empty list, otherwise collect every item, advance the
page counter and rebuild the URL. -/
def fetchLoop (decode : String → Option JVal) (dateparse : String → Option String)
    (collector : String → String) (base_url term endpoint : String) (page_limit : Int) :
    Nat → Int → String → HState → PyRun (Int × HState)
  | fuel, page, url, st =>
    if page_limit == -1 || page < page_limit then
      let raw := collector url
      let st1 : HState := ⟨st.results, st.url_stops, st.skipped, st.fetched ++ [url]⟩
      match decode raw with
      | none => .done (page, st1)
      | some v =>
        match v with
        | .arr (x :: xs) =>
          match processPage dateparse (x :: xs) st1.results st1.url_stops with
          | (some e, results', stops') =>
            .raised e ⟨results', stops', st1.skipped, st1.fetched⟩
          | (none, results', stops') =>
            match fuel with
            | 0 => .hung
            | fuel' + 1 =>
              fetchLoop decode dateparse collector base_url term endpoint page_limit
                fuel' (page + 1) (get_url base_url term (page + 1) endpoint)
                ⟨results', stops', st1.skipped, st1.fetched⟩
        | _ => .done (page, st1)
    else .done (page, st)

/-- The `for endpoint in endpoints` loop of `get_responses`
(source lines 60-103): for each endpoint, run the pre-skip loop starting
from page 1, then the fetch loop. -/
def endpointLoop (decode : String → Option JVal) (dateparse : String → Option String)
    (collector : String → String) (base_url term : String) (page_limit : Int)
    (url_stop_words : List String) (fuel : Nat) :
    List String → HState → PyRun HState
  | [], st => .done st
  | endpoint :: rest, st =>
    match preSkip url_stop_words base_url term endpoint fuel 1
        (get_url base_url term 1 endpoint) st with
    | .hung => .hung
    | .raised e st' => .raised e st'
    | .done (page, url, st') =>
      match fetchLoop decode dateparse collector base_url term endpoint page_limit
          fuel page url st' with
      | .hung => .hung
      | .raised e st'' => .raised e st''
      | .done (_, st'') =>
        endpointLoop decode dateparse collector base_url term page_limit
          url_stop_words fuel rest st''

/-- Embedding of `get_responses(base_url, term, page_limit, url_stop_words,
url_stops, browser, endpoints)` (source lines 24-109).  The
browser-versus-requests dispatch is abstracted into `collector`. -/
def getResponses (fuel : Nat) (decode : String → Option JVal)
    (dateparse : String → Option String) (collector : String → String)
    (base_url term : String) (page_limit : Int) (url_stop_words : List String)
    (url_stops : List JVal) (endpoints : List String) : PyRun HState :=
  endpointLoop decode dateparse collector base_url term page_limit url_stop_words
    fuel endpoints ⟨[], url_stops, 0, []⟩

/-! ## `is_api_available` (source lines 133-180) -/

/-- Embedding of `next(e for e in routes["endpoints"] if "GET" in e["methods"])`
(source line 170): scan the sub-endpoints for the first whose `methods`
contain `"GET"`; an exhausted generator raises `StopIteration`, and any
exception raised while testing an element propagates. -/
def findGetEndpoint : List JVal → Except PyExc JVal
  | [] => .error .stopIteration
  | e :: rest =>
    match e.getItem "methods" with
    | .error ex => .error ex
    | .ok ms =>
      match ms.hasMember "GET" with
      | .error ex => .error ex
      | .ok true => .ok e
      | .ok false => findGetEndpoint rest

/-- The body of the `try` block for one endpoint (source lines 162-173):
decode the fetched description document, walk
`["routes"]["/wp/v2/" + endpoint]`, require `"GET" in routes["methods"]`
(else `return False`), find the first GET-capable sub-endpoint, and
require `"search" in endpoint["args"].keys()` (else `return False`).
`.ok true` means the endpoint passed and the loop continues. -/
def wpTryBody (decode : String → Option JVal) (res : String) (endpoint : String) :
    Except PyExc Bool :=
  match decode res with
  | none => .error .jsonDecodeError
  | some doc =>
    match doc.getItem "routes" with
    | .error e => .error e
    | .ok routesTable =>
      match routesTable.getItem ("/wp/v2/" ++ endpoint) with
      | .error e => .error e
      | .ok routes =>
        match routes.getItem "methods" with
        | .error e => .error e
        | .ok methods =>
          match methods.hasMember "GET" with
          | .error e => .error e
          | .ok false => .ok false
          | .ok true =>
            match routes.getItem "endpoints" with
            | .error e => .error e
            | .ok eps =>
              match eps.pyIter with
              | .error e => .error e
              | .ok lst =>
                match findGetEndpoint lst with
                | .error e => .error e
                | .ok ep =>
                  match ep.getItem "args" with
                  | .error e => .error e
                  | .ok args => args.keysContains "search"

/-- The exception classes named by the `except` clause at source
line 175: `(AttributeError, KeyError, json.JSONDecodeError)`. -/
def caughtByProbe : PyExc → Bool
  | .attributeError => true
  | .keyError => true
  | .jsonDecodeError => true
  | .typeError => false
  | .stopIteration => false

/-- One iteration of the probe's `for endpoint in endpoints` loop: run
the `try` body and turn a caught exception into `return False`. -/
def wpCheckEndpoint (decode : String → Option JVal) (res : String) (endpoint : String) :
    Except PyExc Bool :=
  match wpTryBody decode res endpoint with
  | .ok b => .ok b
  | .error e => if caughtByProbe e then .ok false else .error e

/-- The probe's `for endpoint in endpoints` loop (source lines 160-177):
stop with `False` as soon as an endpoint fails, propagate uncaught
exceptions, and fall through to `return True`. -/
def isApiLoop (decode : String → Option JVal) (res : String) :
    List String → Except PyExc Bool
  | [] => .ok true
  | endpoint :: rest =>
    match wpCheckEndpoint decode res endpoint with
    | .ok true => isApiLoop decode res rest
    | .ok false => .ok false
    | .error e => .error e

/-- Embedding of `is_api_available(url, browser, endpoints)` (source lines 133-180):
fetch `f"{url}/{API_SUFFIX}"` once, then check every endpoint against
the (repeatedly re-decoded, identical) response. -/
def is_api_available (decode : String → Option JVal) (collector : String → String)
    (url : String) (endpoints : List String) : Except PyExc Bool :=
  let api_url := url ++ "/" ++ API_SUFFIX
  let res := collector api_url
  isApiLoop decode res endpoints

/-! ## Spec-side definitions

These follow the wording of the specification, for comparison with the
definitions above, which follow the source. -/

/-- Spec wording for "a sub-endpoint whose `methods` include `GET`":
the sub-endpoint is an object whose `methods` list contains `"GET"`. -/
def specSubPred (sub : JVal) : Bool :=
  match sub with
  | .obj subKvs =>
    match subKvs.lookup "methods" with
    | some (.arr sms) => listHasStr sms "GET"
    | _ => false
  | _ => false

/-- Spec wording for one endpoint of the probe: the decoded description
document's route `/wp/v2/<endpoint>` lists `GET` among its `methods`,
and the first of its sub-endpoints whose `methods` include `GET` has a
`search` key in its `args`. -/
def specEndpointOk (doc : JVal) (endpoint : String) : Bool :=
  match doc with
  | .obj kvs =>
    match kvs.lookup "routes" with
    | some (.obj routesTable) =>
      match routesTable.lookup ("/wp/v2/" ++ endpoint) with
      | some (.obj route) =>
        (match route.lookup "methods" with
          | some (.arr ms) => listHasStr ms "GET"
          | _ => false)
        &&
        (match route.lookup "endpoints" with
          | some (.arr subs) =>
            match subs.find? specSubPred with
            | some (.obj subKvs) =>
              match subKvs.lookup "args" with
              | some (.obj argKvs) => argKvs.any (fun kv => kv.1 == "search")
              | _ => false
            | _ => false
          | _ => false)
      | _ => false
    | _ => false
  | _ => false

/-- A sub-endpoint object is well-shaped when it is a dict whose
`methods` entry is a list. -/
def subWellShaped : JVal → Bool
  | .obj kvs =>
    match kvs.lookup "methods" with
    | some (.arr _) => true
    | _ => false
  | _ => false

/-- A route object is well-shaped when it is a dict whose `methods`
entry is a list and whose `endpoints` entry is a list of well-shaped
sub-endpoint objects. -/
def routeWellShaped : JVal → Bool
  | .obj kvs =>
    (match kvs.lookup "methods" with
      | some (.arr _) => true
      | _ => false)
    &&
    (match kvs.lookup "endpoints" with
      | some (.arr subs) => subs.all subWellShaped
      | _ => false)
  | _ => false

/-- A description document is well-shaped for an endpoint when it is a
dict whose `routes` entry is a dict, and the entry for
`/wp/v2/<endpoint>`, when present, is a well-shaped route object. -/
def wpEndpointWellShaped (doc : JVal) (endpoint : String) : Bool :=
  match doc with
  | .obj kvs =>
    match kvs.lookup "routes" with
    | some (.obj routesTable) =>
      match routesTable.lookup ("/wp/v2/" ++ endpoint) with
      | none => true
      | some r => routeWellShaped r
    | _ => false
  | _ => false

/-- Well-shapedness of a description document for a list of endpoints. -/
def wpDocWellShaped (doc : JVal) (endpoints : List String) : Bool :=
  endpoints.all (wpEndpointWellShaped doc)

/-- Claim C7's wording of URL normalization: surrounding whitespace and
all trailing `/` and `?` characters removed (the trailing characters
treated as one set). -/
def claimNormalize (base_url : String) : String :=
  String.mk (((pyStrip base_url).toList.reverse.dropWhile
    (fun c => c == '/' || c == '?')).reverse)

/-- Claim C7's URL formula:
`<normalized_base>/wp-json/wp/v2/<endpoint>?search=<term>&sentence=1&page=<page>`. -/
def claimUrl (base_url term : String) (page : Int) (endpoint : String) : String :=
  claimNormalize base_url ++ "/wp-json/wp/v2/" ++ endpoint ++ "?search=" ++ term
    ++ "&sentence=1&page=" ++ toString page

/-- Amended normalization: strip surrounding whitespace, then remove all
trailing `/` characters, then remove all trailing `?` characters, in
that order (so a trailing `?` protects a `/` before it). -/
def amendedNormalize (base_url : String) : String :=
  String.mk ((((pyStrip base_url).toList.reverse.dropWhile (fun c => c == '/')).dropWhile
    (fun c => c == '?')).reverse)

/-- Amended URL formula for claim C7, built from `amendedNormalize`. -/
def amendedUrl (base_url term : String) (page : Int) (endpoint : String) : String :=
  amendedNormalize base_url ++ "/wp-json/wp/v2/" ++ endpoint ++ "?search=" ++ term
    ++ "&sentence=1&page=" ++ toString page

/-! ## Concrete fixtures used by witnesses and counterexamples -/

/-- A well-formed result item, as on a Wordpress search results page. -/
def wpItemA : JVal :=
  .obj [("date", .str "2020-01-01T00:00:00"),
        ("content", .obj [("rendered", .str "body")]),
        ("title", .obj [("rendered", .str "Title")]),
        ("link", .str "https://example.com/a")]

/-- A description document on which every check for `posts` passes. -/
def docOK : JVal :=
  .obj [("routes", .obj [("/wp/v2/posts", .obj
    [("methods", .arr [.str "GET", .str "POST"]),
     ("endpoints", .arr [.obj [("methods", .arr [.str "GET"]),
                               ("args", .obj [("search", .null), ("page", .null)])]])])])]

/-- A description document whose `posts` route has a GET method but an
empty sub-endpoint list, so no sub-endpoint is GET-capable. -/
def docBad3 : JVal :=
  .obj [("routes", .obj [("/wp/v2/posts", .obj
    [("methods", .arr [.str "GET"]),
     ("endpoints", .arr [])])])]

/-- A description document whose `pages` route has a GET method but
whose only sub-endpoint accepts POST only, so no sub-endpoint is
GET-capable. -/
def docBad4 : JVal :=
  .obj [("routes", .obj [("/wp/v2/pages", .obj
    [("methods", .arr [.str "GET"]),
     ("endpoints", .arr [.obj [("methods", .arr [.str "POST"]),
                               ("args", .obj [("search", .null)])]])])])]

/-- A description document whose `posts` route is well-formed but whose
first GET-capable sub-endpoint has no `search` key in its `args`. -/
def docNoSearch : JVal :=
  .obj [("routes", .obj [("/wp/v2/posts", .obj
    [("methods", .arr [.str "GET"]),
     ("endpoints", .arr [.obj [("methods", .arr [.str "GET"]),
                               ("args", .obj [("page", .null)])]])])])]

/-- A description document whose first GET-capable sub-endpoint has a
JSON *array* as its `args`, a value without `.keys()`. -/
def docArgsList : JVal :=
  .obj [("routes", .obj [("/wp/v2/posts", .obj
    [("methods", .arr [.str "GET"]),
     ("endpoints", .arr [.obj [("methods", .arr [.str "GET"]),
                               ("args", .arr [.str "search"])]])])])]

/-! ## Helper lemmas -/

/-- When the tested URL is an exact member of `url_stop_words`, the
pre-skip loop condition is true but the loop body never changes the
URL, so the loop runs forever: it yields `hung` for every fuel. -/
theorem preSkip_mem_hung (usw : List String) (b t ep url : String) (h : url ∈ usw) :
    ∀ (fuel : Nat) (page : Int) (st : HState),
      preSkip usw b t ep fuel page url st = .hung := by
  intro fuel
  induction fuel with
  | zero => intro page st; simp [preSkip, preSkipCond, h]
  | succ n ih => intro page st; simp [preSkip, preSkipCond, h]; exact ih _ _

/-- When the tested URL is not an exact member of `url_stop_words`, the
second disjunct of the pre-skip condition is evaluated and `next`
applied to a list raises `TypeError` at once, for any fuel. -/
theorem preSkip_notmem_raises (usw : List String) (b t ep url : String) (h : url ∉ usw)
    (fuel : Nat) (page : Int) (st : HState) :
    preSkip usw b t ep fuel page url st = .raised .typeError st := by
  cases fuel <;> simp [preSkip, preSkipCond, h, pyNextList]

/-- The function `wpCheckEndpoint` only lets an exception escape when the probe's
`except` clause does not catch it. -/
theorem wpCheckEndpoint_error_uncaught (d : String → Option JVal) (res ep : String)
    (ex : PyExc) (h : wpCheckEndpoint d res ep = .error ex) :
    caughtByProbe ex = false := by
  unfold wpCheckEndpoint at h
  cases hb : wpTryBody d res ep with
  | ok b => rw [hb] at h; cases h
  | error e =>
    rw [hb] at h
    simp only [] at h
    split at h
    · simp at h
    · next hc =>
      injection h with h2
      subst h2
      simpa using hc

/-- The only exception classes not named in the probe's `except` clause
are `TypeError` and `StopIteration`. -/
theorem caughtByProbe_false_cases (ex : PyExc) (h : caughtByProbe ex = false) :
    ex = .typeError ∨ ex = .stopIteration := by
  cases ex <;> simp [caughtByProbe] at h ⊢

/-- If the probe's loop lets an exception escape, some endpoint's check
let it escape. -/
theorem isApiLoop_error (d : String → Option JVal) (res : String) :
    ∀ (eps : List String) (ex : PyExc), isApiLoop d res eps = .error ex →
      caughtByProbe ex = false := by
  intro eps
  induction eps with
  | nil => intro ex h; cases h
  | cons ep rest ih =>
    intro ex h
    unfold isApiLoop at h
    cases hc : wpCheckEndpoint d res ep with
    | ok b =>
      rw [hc] at h
      cases b
      · cases h
      · exact ih ex h
    | error e =>
      rw [hc] at h
      cases h
      exact wpCheckEndpoint_error_uncaught d res ep ex hc

/-- The probe's loop answers `ok true` exactly when every endpoint's
check answers `ok true`. -/
theorem isApiLoop_ok_true_iff (d : String → Option JVal) (res : String) :
    ∀ eps : List String, isApiLoop d res eps = .ok true ↔
      ∀ ep ∈ eps, wpCheckEndpoint d res ep = .ok true := by
  intro eps
  induction eps with
  | nil => simp [isApiLoop]
  | cons ep rest ih =>
    unfold isApiLoop
    cases hc : wpCheckEndpoint d res ep with
    | ok b =>
      cases b
      · simp
        intro h
        exact absurd hc (by simp [h])
      · simp [ih]
        intro _
        exact hc
    | error e =>
      simp
      intro h
      exact absurd hc (by simp [h])

/-! ## Claim theorems -/

/-- C1 (code_bug evaluation): with a stop-word list containing
`"wp-json"` — a substring of every page-1 query URL but not an exact
element — `get_responses` does not skip page 1 and advance: it raises
`TypeError` in the pre-skip loop condition before issuing any fetch,
with no skip counted and no record collected. -/
theorem C1_preskip_raises_instead_of_skipping :
    getResponses 50 (fun _ => none) (fun _ => none) (fun _ => "")
      "https://example.com" "climate" (-1) ["wp-json"] [] ["pages", "posts"]
      = .raised .typeError ⟨[], [], 0, []⟩ := rfl

/-- C2: for every call with a nonempty endpoints list, if the page-1
query URL of the first endpoint is not an exact element of
`url_stop_words` then `get_responses` raises `TypeError` while
evaluating the pre-skip loop condition, before any fetch and with the
state untouched; and if it is an exact element, the pre-skip loop never
terminates (`hung` for every fuel), so `get_responses` never returns
normally. -/
theorem C2_preskip_typeerror_or_divergence
    (fuel : Nat) (decode : String → Option JVal) (dateparse : String → Option String)
    (collector : String → String) (base_url term : String) (page_limit : Int)
    (url_stop_words : List String) (url_stops : List JVal) (e : String)
    (rest : List String) :
    (get_url base_url term 1 e ∉ url_stop_words →
      getResponses fuel decode dateparse collector base_url term page_limit
        url_stop_words url_stops (e :: rest)
        = .raised .typeError ⟨[], url_stops, 0, []⟩)
    ∧ (get_url base_url term 1 e ∈ url_stop_words →
      getResponses fuel decode dateparse collector base_url term page_limit
        url_stop_words url_stops (e :: rest) = .hung) := by
  constructor
  · intro h
    unfold getResponses endpointLoop
    rw [preSkip_notmem_raises url_stop_words base_url term e _ h]
  · intro h
    unfold getResponses endpointLoop
    rw [preSkip_mem_hung url_stop_words base_url term e _ h]

/-- Witness for C2, at fuel 5 and concrete inputs: an empty stop-word
list (so the URL is not a member) raises `TypeError`; a stop-word list
containing the exact page-1 query URL hangs. -/
theorem C2_witness :
    (get_url "https://example.com" "climate" 1 "pages" ∉ ([] : List String)
      ∧ getResponses 5 (fun _ => none) (fun _ => none) (fun _ => "")
          "https://example.com" "climate" (-1) [] [] ["pages", "posts"]
          = .raised .typeError ⟨[], [], 0, []⟩)
    ∧ (get_url "https://example.com" "climate" 1 "pages"
        ∈ ["https://example.com/wp-json/wp/v2/pages?search=climate&sentence=1&page=1"]
      ∧ getResponses 5 (fun _ => none) (fun _ => none) (fun _ => "")
          "https://example.com" "climate" (-1)
          ["https://example.com/wp-json/wp/v2/pages?search=climate&sentence=1&page=1"]
          [] ["pages", "posts"] = .hung) :=
  ⟨⟨by decide,
    (C2_preskip_typeerror_or_divergence 5 (fun _ => none) (fun _ => none) (fun _ => "")
      "https://example.com" "climate" (-1) [] [] "pages" ["posts"]).1 (by decide)⟩,
   ⟨by decide,
    (C2_preskip_typeerror_or_divergence 5 (fun _ => none) (fun _ => none) (fun _ => "")
      "https://example.com" "climate" (-1)
      ["https://example.com/wp-json/wp/v2/pages?search=climate&sentence=1&page=1"]
      [] "pages" ["posts"]).2 (by decide)⟩⟩

/-- C5 (code_bug evaluation): with a positive `page_limit` and a
stop-word list containing the exact page-1 query URL of the first
endpoint, `get_responses` runs forever (`hung` for every fuel): it does
not terminate, and examines no page at all. -/
theorem C5_exact_stopword_diverges (fuel : Nat) :
    getResponses fuel (fun _ => none) (fun _ => none) (fun _ => "")
      "https://example.com" "climate" 5
      ["https://example.com/wp-json/wp/v2/pages?search=climate&sentence=1&page=1"]
      [] ["pages", "posts"] = .hung := by
  unfold getResponses endpointLoop
  rw [preSkip_mem_hung _ "https://example.com" "climate" "pages" _ (by decide)]

/-- C6 (code_bug evaluation): even when every fetched page would decode
to a one-item list with a well-formed `link`, `get_responses` emits no
record and adds nothing to `url_stops`: it raises `TypeError` in the
pre-skip loop before fetching or decoding anything. -/
theorem C6_no_record_emitted :
    getResponses 50 (fun _ => some (JVal.arr [wpItemA])) (fun _ => some "2020-01-01")
      (fun _ => "raw") "https://example.com" "climate" (-1) [] [] ["posts"]
      = .raised .typeError ⟨[], [], 0, []⟩ := rfl

/-- C8 (code_bug evaluation): even when every fetched page would fail
JSON decoding, `get_responses` never reaches its decode-failure
handling: it raises `TypeError` in the pre-skip loop before any fetch,
for the first endpoint, so no endpoint is harvested at all. -/
theorem C8_decode_failure_unreachable :
    getResponses 50 (fun _ => none) (fun _ => none) (fun _ => "not json")
      "https://example.com" "climate" (-1) [] [] ["pages", "posts"]
      = .raised .typeError ⟨[], [], 0, []⟩ := rfl

/-- C9 (code_bug evaluation): even when every fetched page would decode
to an empty array, `get_responses` never reaches its end-of-results
handling: it raises `TypeError` in the pre-skip loop before any fetch. -/
theorem C9_empty_page_unreachable :
    getResponses 50 (fun _ => some (JVal.arr [])) (fun _ => none) (fun _ => "[]")
      "https://example.com" "climate" (-1) [] [] ["posts"]
      = .raised .typeError ⟨[], [], 0, []⟩ := rfl

/-- C10: with an empty endpoints list, `is_api_available` returns true
for every collector and every decode function — including ones under
which the fetched body is not valid JSON — since the response is never
decoded or inspected. -/
theorem C10_empty_endpoints_true (decode : String → Option JVal)
    (collector : String → String) (url : String) :
    is_api_available decode collector url [] = .ok true := rfl

/-- C7 counterexample: for the base URL `"http://a.com/?"`, `get_url`
does not remove the trailing `/` (the code strips slashes before
question marks), so the output differs from the claim's formula; and
`"http://a.com/?"` and `"http://a.com"`, which differ only in trailing
`/` and `?` characters, produce different output URLs. -/
theorem C7_counterexample_trailing_chars :
    get_url "http://a.com/?" "t" 1 "posts" ≠ claimUrl "http://a.com/?" "t" 1 "posts"
    ∧ get_url "http://a.com/?" "t" 1 "posts" ≠ get_url "http://a.com" "t" 1 "posts" := by
  exact ⟨by decide, by decide⟩

/-- String append is associative. -/
theorem strAppend_assoc (a b c : String) : a ++ b ++ c = a ++ (b ++ c) := by
  apply String.ext
  simp [String.data_append, List.append_assoc]

/-- The source's normalization `strip().rstrip("/").rstrip("?")` equals
the amended normalization (slashes removed first, then question
marks). -/
theorem getUrl_norm_eq (b : String) :
    pyRstrip (pyRstrip (pyStrip b) '/') '?' = amendedNormalize b := by
  simp [pyRstrip, amendedNormalize, String.toList, List.reverse_reverse]

/-- C7 (amended): `get_url` returns
`<norm>/wp-json/wp/v2/<endpoint>?search=<term>&sentence=1&page=<page>`
where `norm` strips surrounding whitespace, then removes all trailing
`/` characters, then all trailing `?` characters — in that order, so a
trailing `?` protects a `/` before it. -/
theorem C7_amended_get_url (b t : String) (p : Int) (e : String) :
    get_url b t p e = amendedUrl b t p e := by
  have h1 : ∀ X : List Char,
      "/".data ++ ("wp-json/wp/v2".data ++ ("/".data ++ X)) = "/wp-json/wp/v2/".data ++ X := by
    intro X
    rw [← List.append_assoc, ← List.append_assoc]
    congr 1
  have h2 : ∀ X : List Char,
      "?".data ++ ("search=".data ++ X) = "?search=".data ++ X := by
    intro X
    rw [← List.append_assoc]
    congr 1
  have h3 : ∀ X : List Char,
      "&".data ++ ("sentence=1".data ++ ("&".data ++ ("page=".data ++ X)))
        = "&sentence=1&page=".data ++ X := by
    intro X
    rw [← List.append_assoc, ← List.append_assoc, ← List.append_assoc]
    congr 1
  unfold get_url amendedUrl API_SUFFIX
  rw [getUrl_norm_eq]
  apply String.ext
  simp only [pyJoin, String.data_append, List.append_assoc]
  rw [h1, h2, h3]

/-- C3 counterexample: two fetched bodies on which `is_api_available`
propagates an exception instead of returning false.  A valid document
whose `posts` route has a GET method but no GET-capable sub-endpoint
raises `StopIteration`; a wrong-shaped document that is a JSON array
rather than a dict raises `TypeError` when subscripted with
`"routes"`. -/
theorem C3_counterexample_uncaught_exceptions :
    is_api_available (fun _ => some docBad3) (fun _ => "raw") "http://x" ["posts"]
      = .error .stopIteration
    ∧ is_api_available (fun _ => some (JVal.arr [])) (fun _ => "raw") "http://x" ["posts"]
      = .error .typeError :=
  ⟨rfl, rfl⟩

/-- An endpoint's check answers `ok false` — the probe returns false at
that endpoint — exactly when the `try` body either answers `False`
itself or raises one of the classes named in the `except` clause. -/
theorem wpCheckEndpoint_ok_false_iff (d : String → Option JVal) (res ep : String) :
    wpCheckEndpoint d res ep = .ok false ↔
      (wpTryBody d res ep = .ok false ∨
       ∃ ex, caughtByProbe ex = true ∧ wpTryBody d res ep = .error ex) := by
  cases hb : wpTryBody d res ep with
  | ok b =>
    cases b
    · simp [wpCheckEndpoint, hb]
    · simp [wpCheckEndpoint, hb]
  | error ex0 =>
    cases hc : caughtByProbe ex0
    · simp [wpCheckEndpoint, hb, hc]
    · simp [wpCheckEndpoint, hb, hc]

/-- If every endpoint before `e` passes its check and `e`'s check
answers `ok false`, the probe's loop returns false. -/
theorem isApiLoop_prefix_false (d : String → Option JVal) (res : String) :
    ∀ (pre : List String) (e : String) (rest : List String),
      (∀ e' ∈ pre, wpCheckEndpoint d res e' = .ok true) →
      wpCheckEndpoint d res e = .ok false →
      isApiLoop d res (pre ++ e :: rest) = .ok false := by
  intro pre
  induction pre with
  | nil => intro e rest _ hfail; simp [isApiLoop, hfail]
  | cons p pre' ih =>
    intro e rest hpass hfail
    have hp : wpCheckEndpoint d res p = .ok true := hpass p (by simp)
    rw [List.cons_append]
    unfold isApiLoop
    rw [hp]
    exact ih e rest (fun e' he' => hpass e' (by simp [he'])) hfail

/-- C3 (amended): `is_api_available` never propagates `KeyError`,
`AttributeError` or `JSONDecodeError` — any exception that escapes to
the caller is a `TypeError` or a `StopIteration`.  An endpoint whose
check fails without an uncaught exception — its `try` body answers
`False` or raises one of the three caught classes — makes the function
return false once the endpoints before it have passed; in particular a
JSON decode failure with a nonempty endpoints list returns false, as
do, at concrete documents, a missing `routes` key (`KeyError`), an
`args` value without `.keys()` (`AttributeError`) and an `args` mapping
lacking `search`.  But not every failure returns false: a route with a
GET method and no GET-capable sub-endpoint raises `StopIteration`, and
an array description document raises `TypeError`. -/
theorem C3_amended_error_classes (decode : String → Option JVal)
    (collector : String → String) (url : String) :
    (∀ (endpoints : List String) (ex : PyExc),
        is_api_available decode collector url endpoints = .error ex →
        ex = .typeError ∨ ex = .stopIteration)
    ∧ (∀ (e : String) (rest : List String),
        decode (collector (url ++ "/" ++ API_SUFFIX)) = none →
        is_api_available decode collector url (e :: rest) = .ok false)
    ∧ (∀ (pre : List String) (e : String) (rest : List String),
        (∀ e' ∈ pre,
          wpCheckEndpoint decode (collector (url ++ "/" ++ API_SUFFIX)) e' = .ok true) →
        wpCheckEndpoint decode (collector (url ++ "/" ++ API_SUFFIX)) e = .ok false →
        is_api_available decode collector url (pre ++ e :: rest) = .ok false)
    ∧ (∀ e : String,
        wpCheckEndpoint decode (collector (url ++ "/" ++ API_SUFFIX)) e = .ok false ↔
          (wpTryBody decode (collector (url ++ "/" ++ API_SUFFIX)) e = .ok false ∨
           ∃ ex, caughtByProbe ex = true ∧
             wpTryBody decode (collector (url ++ "/" ++ API_SUFFIX)) e = .error ex))
    ∧ is_api_available (fun _ => some docBad3) (fun _ => "raw") "http://x3" ["posts"]
        = .error .stopIteration
    ∧ is_api_available (fun _ => some (JVal.arr [])) (fun _ => "raw") "http://x3" ["posts"]
        = .error .typeError
    ∧ is_api_available (fun _ => some (JVal.obj [])) (fun _ => "raw") "http://x3" ["posts"]
        = .ok false
    ∧ is_api_available (fun _ => some docArgsList) (fun _ => "raw") "http://x3" ["posts"]
        = .ok false
    ∧ is_api_available (fun _ => some docNoSearch) (fun _ => "raw") "http://x3" ["posts"]
        = .ok false := by
  refine ⟨?_, ?_, ?_, ?_, rfl, rfl, rfl, rfl, rfl⟩
  · intro endpoints ex h
    exact caughtByProbe_false_cases ex
      (isApiLoop_error decode (collector (url ++ "/" ++ API_SUFFIX)) endpoints ex h)
  · intro e rest hdec
    simp [is_api_available, isApiLoop, wpCheckEndpoint, wpTryBody, hdec, caughtByProbe]
  · intro pre e rest hpass hfail
    exact isApiLoop_prefix_false decode (collector (url ++ "/" ++ API_SUFFIX))
      pre e rest hpass hfail
  · intro e
    exact wpCheckEndpoint_ok_false_iff decode (collector (url ++ "/" ++ API_SUFFIX)) e

/-- Witness for C3's amended theorem: the `StopIteration` escape at
`docBad3` is among the permitted classes; a decode failure on
`["posts"]` yields false; and with `["posts", "pages"]` against `docOK`
(whose `posts` passes and which has no `pages` route, a missing key),
the function returns false. -/
theorem C3_amended_witness :
    (PyExc.stopIteration = PyExc.typeError ∨ PyExc.stopIteration = PyExc.stopIteration)
    ∧ is_api_available (fun _ => none) (fun _ => "raw") "http://w" ["posts"] = .ok false
    ∧ is_api_available (fun _ => some docOK) (fun _ => "raw") "http://w" ["posts", "pages"]
        = .ok false :=
  ⟨(C3_amended_error_classes (fun _ => some docBad3) (fun _ => "raw") "http://x3").1
      ["posts"] PyExc.stopIteration rfl,
   (C3_amended_error_classes (fun _ => none) (fun _ => "raw") "http://w").2.1
      "posts" [] rfl,
   (C3_amended_error_classes (fun _ => some docOK) (fun _ => "raw") "http://w").2.2.1
      ["posts"] "pages" []
      (by intro e' he'; rw [List.mem_singleton] at he'; subst he'; rfl) rfl⟩

/-- On a list of well-shaped sub-endpoint objects, the probe's `next`
over the generator agrees with "the first sub-endpoint whose `methods`
include GET", raising `StopIteration` when there is none. -/
theorem findGetEndpoint_eq_find? :
    ∀ subs : List JVal, subs.all subWellShaped = true →
      findGetEndpoint subs =
        (match subs.find? specSubPred with
          | some s => .ok s
          | none => .error .stopIteration) := by
  intro subs
  induction subs with
  | nil => intro _; rfl
  | cons s rest ih =>
    intro h
    rw [List.all_cons, Bool.and_eq_true] at h
    obtain ⟨hs, hrest⟩ := h
    cases s with
    | null => simp [subWellShaped] at hs
    | bool b => simp [subWellShaped] at hs
    | num n => simp [subWellShaped] at hs
    | str t => simp [subWellShaped] at hs
    | arr xs => simp [subWellShaped] at hs
    | obj skvs =>
      unfold subWellShaped at hs
      simp only [] at hs
      cases hm : skvs.lookup "methods" with
      | none => rw [hm] at hs; simp at hs
      | some m =>
        cases m with
        | null => rw [hm] at hs; simp at hs
        | bool b => rw [hm] at hs; simp at hs
        | num n => rw [hm] at hs; simp at hs
        | str t => rw [hm] at hs; simp at hs
        | obj okvs => rw [hm] at hs; simp at hs
        | arr sms =>
          cases hGET : listHasStr sms "GET" with
          | true =>
            have hps : specSubPred (JVal.obj skvs) = true := by
              simp [specSubPred, hm, hGET]
            rw [List.find?_cons_of_pos _ hps]
            simp [findGetEndpoint, JVal.getItem, hm, JVal.hasMember, hGET]
          | false =>
            have hps : specSubPred (JVal.obj skvs) = false := by
              simp [specSubPred, hm, hGET]
            rw [List.find?_cons_of_neg _ (by simp [hps])]
            rw [← ih hrest]
            simp [findGetEndpoint, JVal.getItem, hm, JVal.hasMember, hGET]

/-- Under well-shapedness of the description document for an endpoint,
one iteration of the probe's loop answers `ok true` exactly when the
spec-side predicate holds for that endpoint. -/
theorem wpCheckEndpoint_iff_spec (d : String → Option JVal) (res ep : String) (doc : JVal)
    (hdec : d res = some doc) (hws : wpEndpointWellShaped doc ep = true) :
    (wpCheckEndpoint d res ep = .ok true ↔ specEndpointOk doc ep = true) := by
  cases doc with
  | null => simp [wpEndpointWellShaped] at hws
  | bool b => simp [wpEndpointWellShaped] at hws
  | num n => simp [wpEndpointWellShaped] at hws
  | str t => simp [wpEndpointWellShaped] at hws
  | arr xs => simp [wpEndpointWellShaped] at hws
  | obj kvs =>
    unfold wpEndpointWellShaped at hws
    simp only [] at hws
    cases hr : kvs.lookup "routes" with
    | none => rw [hr] at hws; simp at hws
    | some rv =>
      rw [hr] at hws
      cases rv with
      | null => simp at hws
      | bool b => simp at hws
      | num n => simp at hws
      | str t => simp at hws
      | arr xs => simp at hws
      | obj routesTable =>
        simp only [] at hws
        cases hroute : routesTable.lookup ("/wp/v2/" ++ ep) with
        | none =>
          simp [wpCheckEndpoint, wpTryBody, hdec, JVal.getItem, hr, hroute,
                specEndpointOk, caughtByProbe]
        | some r =>
          rw [hroute] at hws
          simp only [] at hws
          cases r with
          | null => simp [routeWellShaped] at hws
          | bool b => simp [routeWellShaped] at hws
          | num n => simp [routeWellShaped] at hws
          | str t => simp [routeWellShaped] at hws
          | arr xs => simp [routeWellShaped] at hws
          | obj rkvs =>
            unfold routeWellShaped at hws
            simp only [] at hws
            rw [Bool.and_eq_true] at hws
            obtain ⟨hm', he'⟩ := hws
            cases hm : rkvs.lookup "methods" with
            | none => rw [hm] at hm'; simp at hm'
            | some mv =>
              rw [hm] at hm'
              cases mv with
              | null => simp at hm'
              | bool b => simp at hm'
              | num n => simp at hm'
              | str t => simp at hm'
              | obj okvs => simp at hm'
              | arr ms =>
                cases he : rkvs.lookup "endpoints" with
                | none => rw [he] at he'; simp at he'
                | some ev =>
                  rw [he] at he'
                  cases ev with
                  | null => simp at he'
                  | bool b => simp at he'
                  | num n => simp at he'
                  | str t => simp at he'
                  | obj okvs => simp at he'
                  | arr subs =>
                    have hall : subs.all subWellShaped = true := by simpa using he'
                    cases hGET : listHasStr ms "GET" with
                    | false =>
                      simp [wpCheckEndpoint, wpTryBody, hdec, JVal.getItem, hr, hroute,
                            hm, JVal.hasMember, hGET, specEndpointOk, caughtByProbe]
                    | true =>
                      cases hf : subs.find? specSubPred with
                      | none =>
                        simp [wpCheckEndpoint, wpTryBody, hdec, JVal.getItem, hr, hroute,
                              hm, he, JVal.hasMember, JVal.pyIter, hGET,
                              findGetEndpoint_eq_find? subs hall, hf,
                              specEndpointOk, caughtByProbe]
                      | some s =>
                        have hps : specSubPred s = true := List.find?_some hf
                        cases s with
                        | null => simp [specSubPred] at hps
                        | bool b => simp [specSubPred] at hps
                        | num n => simp [specSubPred] at hps
                        | str t => simp [specSubPred] at hps
                        | arr xs => simp [specSubPred] at hps
                        | obj skvs =>
                          cases ha : skvs.lookup "args" with
                          | none =>
                            simp [wpCheckEndpoint, wpTryBody, hdec, JVal.getItem, hr, hroute,
                                  hm, he, JVal.hasMember, JVal.pyIter, hGET,
                                  findGetEndpoint_eq_find? subs hall, hf, ha,
                                  specEndpointOk, caughtByProbe]
                          | some a =>
                            cases a with
                            | obj akvs =>
                              simp [wpCheckEndpoint, wpTryBody, hdec, JVal.getItem, hr, hroute,
                                    hm, he, JVal.hasMember, JVal.pyIter, hGET,
                                    findGetEndpoint_eq_find? subs hall, hf, ha,
                                    JVal.keysContains, specEndpointOk, caughtByProbe]
                            | null =>
                              simp [wpCheckEndpoint, wpTryBody, hdec, JVal.getItem, hr, hroute,
                                    hm, he, JVal.hasMember, JVal.pyIter, hGET,
                                    findGetEndpoint_eq_find? subs hall, hf, ha,
                                    JVal.keysContains, specEndpointOk, caughtByProbe]
                            | bool b =>
                              simp [wpCheckEndpoint, wpTryBody, hdec, JVal.getItem, hr, hroute,
                                    hm, he, JVal.hasMember, JVal.pyIter, hGET,
                                    findGetEndpoint_eq_find? subs hall, hf, ha,
                                    JVal.keysContains, specEndpointOk, caughtByProbe]
                            | num n =>
                              simp [wpCheckEndpoint, wpTryBody, hdec, JVal.getItem, hr, hroute,
                                    hm, he, JVal.hasMember, JVal.pyIter, hGET,
                                    findGetEndpoint_eq_find? subs hall, hf, ha,
                                    JVal.keysContains, specEndpointOk, caughtByProbe]
                            | str t =>
                              simp [wpCheckEndpoint, wpTryBody, hdec, JVal.getItem, hr, hroute,
                                    hm, he, JVal.hasMember, JVal.pyIter, hGET,
                                    findGetEndpoint_eq_find? subs hall, hf, ha,
                                    JVal.keysContains, specEndpointOk, caughtByProbe]
                            | arr xs =>
                              simp [wpCheckEndpoint, wpTryBody, hdec, JVal.getItem, hr, hroute,
                                    hm, he, JVal.hasMember, JVal.pyIter, hGET,
                                    findGetEndpoint_eq_find? subs hall, hf, ha,
                                    JVal.keysContains, specEndpointOk, caughtByProbe]

/-- C4 counterexample: on a document whose `pages` endpoint fails the
sub-endpoint check (its only sub-endpoint is POST-only), the claim says
the result is false, but `is_api_available` raises `StopIteration`. -/
theorem C4_counterexample_failing_endpoint_not_false :
    specEndpointOk docBad4 "pages" = false
    ∧ is_api_available (fun _ => some docBad4) (fun _ => "raw") "http://y" ["pages"]
      = .error .stopIteration :=
  ⟨rfl, rfl⟩

/-- C4 (amended): for a well-shaped description document,
`is_api_available` returns true exactly when every requested endpoint's
route lists `GET` among its methods and the first GET-capable
sub-endpoint has a `search` key in its `args`; a failing endpoint makes
the result not-true, but not necessarily false (it raises
`StopIteration` when the route has no GET-capable sub-endpoint). -/
theorem C4_available_iff_spec (decode : String → Option JVal)
    (collector : String → String) (url : String) (endpoints : List String) (doc : JVal)
    (hdec : decode (collector (url ++ "/" ++ API_SUFFIX)) = some doc)
    (hws : wpDocWellShaped doc endpoints = true) :
    (is_api_available decode collector url endpoints = .ok true
      ↔ ∀ ep ∈ endpoints, specEndpointOk doc ep = true) := by
  refine Iff.trans
    (isApiLoop_ok_true_iff decode (collector (url ++ "/" ++ API_SUFFIX)) endpoints) ?_
  unfold wpDocWellShaped at hws
  rw [List.all_eq_true] at hws
  constructor
  · intro h ep hmem
    exact (wpCheckEndpoint_iff_spec decode _ ep doc hdec (hws ep hmem)).mp (h ep hmem)
  · intro h ep hmem
    exact (wpCheckEndpoint_iff_spec decode _ ep doc hdec (hws ep hmem)).mpr (h ep hmem)

/-- Witness for C4's amended theorem: a concrete well-shaped document on
which the probe answers true and the per-endpoint spec predicate
holds. -/
theorem C4_available_iff_spec_witness :
    (fun _ : String => some docOK) ((fun _ : String => "raw") ("http://w4" ++ "/" ++ API_SUFFIX))
      = some docOK
    ∧ wpDocWellShaped docOK ["posts"] = true
    ∧ (is_api_available (fun _ => some docOK) (fun _ => "raw") "http://w4" ["posts"] = .ok true
        ↔ ∀ ep ∈ ["posts"], specEndpointOk docOK ep = true) :=
  ⟨rfl, rfl,
   C4_available_iff_spec (fun _ => some docOK) (fun _ => "raw") "http://w4" ["posts"] docOK
     rfl rfl⟩
